import Mathlib

/-!
Verification of the SMART-CANTEEN-APP order lifecycle against its
natural-language specification.

The repository contains two independent implementations of the canteen
order lifecycle:

* `src/main.py` — a FastAPI variant with tokenized order tracking
  (`create_order`, `update_status`, `status_by_token`, menu CRUD).
  Embedded below in namespace `TokenApi`.
* `src/app.py` — a Flask variant (`place_order`, `update_order_status`,
  `update_menu_item`).  Embedded below in namespace `WebApp`.

Modelling conventions:

* Prices are embedded as `ℚ`.  The Python sources store prices as
  floats; all claims under study are about the decimal arithmetic the
  code expresses (sums of price × quantity, rounding to two decimals),
  which the rational embedding captures exactly.
* `Python`'s `round(x, 2)` rounds half to even; `round2` below embeds it
  on `ℚ`.
* The database session is embedded as explicit state passing: every
  mutating handler maps a pre-state to `(post-state, Except error out)`.
  A SQLAlchemy `rollback()` (or an uncaught exception before `commit()`)
  discards all uncommitted inserts, so the corresponding error branches
  return the pre-state unchanged.
* HTTP error responses are embedded as a status code plus detail string,
  mirroring the `HTTPException(code, msg)` / `jsonify({...}), code`
  calls of the sources.  The spec's error vocabulary maps to them as
  follows (token variant): `EmptyOrder` ↦ 400 "Order must contain at
  least one item", `ItemNotFound` ↦ 404 "Menu item i not found",
  `ItemUnavailable` ↦ 400 "Item n is not available", `OrderNotFound` ↦
  404 "Order not found", `InvalidToken` ↦ 404 "Invalid token",
  `InvalidStatus` ↦ 400 "Invalid status...".  (The source wraps the item
  name in single quote marks and prints Python's repr of the allowed
  list; the quote characters are omitted here, which no claim depends
  on.)
-/

set_option maxRecDepth 8000

/-- An HTTP-level error response: status code and detail message. -/
structure ApiError where
  status_code : Nat
  detail : String
deriving DecidableEq, Repr

/-- Round half to even at integer granularity, as Python's builtin
`round` does (`round(0.5) = 0`, `round(1.5) = 2`). -/
def roundHalfEven (q : ℚ) : ℤ :=
  let f : ℤ := q.num.ediv (q.den : ℤ)
  let r : ℚ := q - (f : ℚ)
  if r < 1/2 then f
  else if 1/2 < r then f + 1
  else if f % 2 = 0 then f else f + 1

/-- Python's `round(x, 2)` on the rational embedding of the value. -/
def round2 (q : ℚ) : ℚ := (roundHalfEven (q * 100) : ℚ) / 100

namespace TokenApi

/-- A row of the menu table of the token-tracking variant, with the
fields read by `src/main.py` (`m.id`, `m.name`, `m.price`,
`m.is_available`). -/
structure MenuItem where
  id : Int
  name : String
  price : ℚ
  is_available : Bool
deriving DecidableEq, Repr

/-- Modelled from the spec: the Order row of the token-tracking variant.
`models.py` is not under src/, so the columns are those populated and
read by `src/main.py` (token, customer_name, phone, total_amount,
status, created_at); per the spec a new order starts in the initial
status, spelled "placed" in this variant (the spelling used by
`main.py`'s allowed-status and active-status sets), and `created_at` is
the creation timestamp, embedded as a natural number. -/
structure Order where
  id : Nat
  token : String
  customer_name : Option String
  phone : Option String
  total_amount : ℚ
  status : String
  created_at : Nat
deriving DecidableEq, Repr

/-- A persisted order line of the token-tracking variant, with exactly
the fields `src/main.py` populates: `OrderItem(item_id=m.id,
quantity=it.quantity, price_at_purchase=m.price)` plus the `order_id`
assigned after the flush.  No item name is stored on the line. -/
structure OrderItem where
  order_id : Nat
  item_id : Int
  quantity : Int
  price_at_purchase : ℚ
deriving DecidableEq, Repr

/-- One requested line of an order-creation payload: `(item_id,
quantity)`.  The spec's input contract is `(menu_item_id, quantity)`
pairs with quantity ≥ 1; the pydantic schema that would enforce (or not
enforce) that bound lives in `schemas.py`, which is not under src/, so
the field is embedded as a plain integer carrier — the ambient domain of
the persisted quantity column — and theorems about the token variant
whose content depends on the quantity's range state the spec's
`1 ≤ quantity` bound as an explicit hypothesis. -/
structure OrderItemIn where
  item_id : Int
  quantity : Int
deriving DecidableEq, Repr

/-- The order-creation payload of `src/main.py` (`payload.items`,
`payload.customer_name`, `payload.phone`). -/
structure OrderCreate where
  customer_name : Option String
  phone : Option String
  items : List OrderItemIn
deriving DecidableEq, Repr

/-- The database state of the token-tracking variant: the three tables
touched by `src/main.py`, plus the autoincrement counter the flush draws
order ids from. -/
structure Db where
  menu : List MenuItem
  orders : List Order
  order_items : List OrderItem
  next_order_id : Nat
deriving DecidableEq, Repr

/-- The response of `GET /status/token` (`StatusByToken`). -/
structure StatusOut where
  order_id : Nat
  token : String
  status : String
  queue_position : Nat
deriving DecidableEq, Repr

/-- Primary-key lookup in the menu table (`db.get(MenuItem, id)` /
membership in the `menu_map` dict of `create_order`; ids are primary
keys, hence unique, so first match equals dict lookup). -/
def lookup_item (menu : List MenuItem) (i : Int) : Option MenuItem :=
  menu.find? (fun m => m.id == i)

/-- `allowed` in `update_status`, src/main.py line 120. -/
def allowed_statuses : List String :=
  ["placed", "preparing", "ready", "completed", "cancelled"]

/-- `active` in `status_by_token`, src/main.py line 141. -/
def active_statuses : List String := ["placed", "preparing"]

/-- The statuses that short-circuit queue position to 0,
src/main.py line 137. -/
def terminal_statuses : List String := ["ready", "completed", "cancelled"]

/-- Error for a line referencing a nonexistent menu item,
src/main.py line 83. -/
def item_not_found_err (i : Int) : ApiError :=
  ⟨404, "Menu item " ++ toString i ++ " not found"⟩

/-- Error for a line referencing an unavailable menu item,
src/main.py line 86. -/
def item_unavailable_err (n : String) : ApiError :=
  ⟨400, "Item " ++ n ++ " is not available"⟩

/-- Error for an empty order, src/main.py line 75. -/
def empty_order_err : ApiError := ⟨400, "Order must contain at least one item"⟩

/-- Error for an unknown status value, src/main.py line 122. -/
def invalid_status_err : ApiError :=
  ⟨400, "Invalid status. Allowed: [cancelled, completed, placed, preparing, ready]"⟩

/-- Error for a missing order, src/main.py lines 115 and 125. -/
def order_not_found_err : ApiError := ⟨404, "Order not found"⟩

/-- Error for a token carried by no order, src/main.py line 136. -/
def invalid_token_err : ApiError := ⟨404, "Invalid token"⟩

/-- The validation loop of `create_order` (src/main.py lines 81-89):
walks the requested lines in order; the first line whose item is missing
from the menu raises 404, the first whose item is unavailable raises
400; otherwise each line is turned into an `OrderItem` snapshotting the
item's current price (the `order_id` is filled in after the flush, here
at construction). -/
def validate_items (menu : List MenuItem) (oid : Nat) :
    List OrderItemIn → Except ApiError (List OrderItem)
  | [] => .ok []
  | it :: rest =>
    match lookup_item menu it.item_id with
    | none => .error (item_not_found_err it.item_id)
    | some m =>
      if m.is_available then
        match validate_items menu oid rest with
        | .error e => .error e
        | .ok ls => .ok (⟨oid, m.id, it.quantity, m.price⟩ :: ls)
      else .error (item_unavailable_err m.name)

/-- `POST /orders` (src/main.py lines 72-100).  Rejects an empty
payload, validates every line against the menu, accumulates the total as
the sum of current price × quantity, rounds it to two decimals
(`round(total, 2)`, line 92), and persists the order and its lines
atomically (all validation precedes every insert).  The freshly
generated tracking token and the creation timestamp are passed in. -/
def create_order (payload : OrderCreate) (tok : String) (now : Nat)
    (db : Db) : Db × Except ApiError Order :=
  if payload.items.isEmpty then (db, .error empty_order_err)
  else
    match validate_items db.menu db.next_order_id payload.items with
    | .error e => (db, .error e)
    | .ok lines =>
      let total : ℚ :=
        lines.foldl (fun acc l => acc + l.price_at_purchase * l.quantity) 0
      let order : Order :=
        ⟨db.next_order_id, tok, payload.customer_name, payload.phone,
          round2 total, "placed", now⟩
      ({ db with
          orders := db.orders ++ [order],
          order_items := db.order_items ++ lines,
          next_order_id := db.next_order_id + 1 },
        .ok order)

/-- `PATCH /orders/id/status` (src/main.py lines 118-129).  The status
vocabulary is checked first, then the order is looked up; on success the
order's status is overwritten and the refreshed row returned. -/
def update_status (order_id : Nat) (new_status : String) (db : Db) :
    Db × Except ApiError Order :=
  if new_status ∈ allowed_statuses then
    match db.orders.find? (fun o => o.id == order_id) with
    | none => (db, .error order_not_found_err)
    | some o =>
      ({ db with
          orders := db.orders.map (fun p =>
            if p.id == order_id then { p with status := new_status } else p) },
        .ok { o with status := new_status })
  else (db, .error invalid_status_err)

/-- `GET /status/token` (src/main.py lines 131-149).  `scalar_one_or_none`
returns the only matching row, `None` when there is none (→ 404), and
raises `MultipleResultsFound` when several match (→ 500).  Queue
position is 0 for a terminal status, otherwise the count of orders
placed at or before this one whose status is still active. -/
def status_by_token (tok : String) (db : Db) : Except ApiError StatusOut :=
  match db.orders.filter (fun o => o.token == tok) with
  | [] => .error invalid_token_err
  | [o] =>
    if o.status ∈ terminal_statuses then
      .ok ⟨o.id, o.token, o.status, 0⟩
    else
      .ok ⟨o.id, o.token, o.status,
        (db.orders.filter (fun p =>
          decide (p.created_at ≤ o.created_at)
            && active_statuses.contains p.status)).length⟩
  | _ => .error ⟨500, "Multiple rows were found when one or none was required"⟩

/-- `DELETE /menu/id` (src/main.py lines 62-69).  Deletes the row
unconditionally once found; no referential check against order lines is
performed (the orders and order_items tables are untouched). -/
def delete_menu_item (item_id : Int) (db : Db) : Db × Except ApiError Int :=
  match lookup_item db.menu item_id with
  | none => (db, .error ⟨404, "Menu item not found"⟩)
  | some _ =>
    ({ db with menu := db.menu.filter (fun m => !(m.id == item_id)) },
      .ok item_id)

/-- The partial-update payload of `PUT /menu/id`.  Modelled from the
spec: `schemas.py` is not under src/; the spec's staff menu writes are
toggle availability, adjust price, adjust preparation time, and
`main.py` applies whatever fields are set (`exclude_unset`), here
embedded as optional name, price and availability. -/
structure MenuItemUpdate where
  name : Option String
  price : Option ℚ
  is_available : Option Bool
deriving DecidableEq, Repr

/-- Apply the set fields of a partial update to a menu row
(`setattr(item, k, v)` per set field, src/main.py lines 56-57). -/
def apply_menu_update (p : MenuItemUpdate) (m : MenuItem) : MenuItem :=
  let m1 := match p.name with | some v => { m with name := v } | none => m
  let m2 := match p.price with | some v => { m1 with price := v } | none => m1
  match p.is_available with | some v => { m2 with is_available := v } | none => m2

/-- `PUT /menu/id` (src/main.py lines 51-60).  Updates only the matching
menu row; the orders and order_items tables are untouched. -/
def update_menu_item (item_id : Int) (p : MenuItemUpdate) (db : Db) :
    Db × Except ApiError MenuItem :=
  match lookup_item db.menu item_id with
  | none => (db, .error ⟨404, "Menu item not found"⟩)
  | some m =>
    ({ db with menu := db.menu.map (fun x =>
        if x.id == item_id then apply_menu_update p x else x) },
      .ok (apply_menu_update p m))

end TokenApi

namespace WebApp

/-- A wall-clock instant at the granularity the Flask variant
manipulates: hours since an epoch (absorbing the date), minute of the
hour, and second of the minute.  `datetime.replace(second=0,
microsecond=0)` zeroes the second; `datetime.replace(minute=m)` raises
`ValueError` unless `0 ≤ m ≤ 59`. -/
structure DT where
  hour : Nat
  minute : Nat
  second : Nat
deriving DecidableEq, Repr

/-- The instant as minutes since the epoch (seconds discarded). -/
def DT.toMinutes (d : DT) : Nat := d.hour * 60 + d.minute

/-- `datetime.replace(minute=m)`: succeeds only for `0 ≤ m ≤ 59`;
out of range it raises `ValueError: minute must be in 0..59`. -/
def replace_minute (d : DT) (m : Int) : Option DT :=
  if 0 ≤ m ∧ m ≤ 59 then some { d with minute := m.toNat } else none

/-- A row of the `menu_item` table of the Flask variant
(src/app.py lines 33-41), with the fields the handlers touch. -/
structure MenuItem where
  id : Nat
  name : String
  price : ℚ
  available : Bool
  preparation_time : Int
deriving DecidableEq, Repr

/-- A row of the `order` table (src/app.py lines 43-51). -/
structure Order where
  id : Nat
  user_id : Nat
  order_date : DT
  status : String
  total_amount : ℚ
  estimated_time : Option DT
deriving DecidableEq, Repr

/-- A row of the `order_item` table (src/app.py lines 53-59): quantity
and the unit price snapshotted from the menu at purchase time. -/
structure OrderItem where
  order_id : Nat
  menu_item_id : Nat
  quantity : Int
  price : ℚ
deriving DecidableEq, Repr

/-- One entry of the request's `items` JSON array in `place_order`:
`item['id']`, `item['quantity']`, and the optional `name` used only in
the error message (`item.get("name", "unknown")`). -/
structure ReqItem where
  id : Nat
  quantity : Int
  name : Option String
deriving DecidableEq, Repr

/-- The database state of the Flask variant: the tables the order
handlers touch, plus the autoincrement counter for order ids. -/
structure Db where
  menu : List MenuItem
  orders : List Order
  order_items : List OrderItem
  next_order_id : Nat
deriving DecidableEq, Repr

/-- The JSON body of a successful `place_order` response
(src/app.py lines 178-183). -/
structure PlaceResp where
  order_id : Nat
  total_amount : ℚ
  estimated_time : DT
deriving DecidableEq, Repr

/-- Primary-key lookup (`MenuItem.query.get(id)`). -/
def lookup_item (menu : List MenuItem) (i : Nat) : Option MenuItem :=
  menu.find? (fun m => m.id == i)

/-- `valid_statuses` in `update_order_status`, src/app.py line 259. -/
def valid_statuses : List String :=
  ["pending", "preparing", "ready", "completed", "cancelled"]

/-- Error for an empty order, src/app.py line 142. -/
def no_items_err : ApiError := ⟨400, "No items in order"⟩

/-- The single error `place_order` produces for a line whose item is
missing from the menu OR present but unavailable (src/app.py lines
157-159): both causes return the same 400 response, naming the item by
the request-provided `name` field (`"unknown"` when absent), not by
anything read from the database. -/
def not_available_err (it : ReqItem) : ApiError :=
  ⟨400, "Item " ++ it.name.getD "unknown" ++ " not available"⟩

/-- The uncaught `ValueError` raised by `datetime.replace` when the
minute arithmetic leaves 0..59; surfaces as a 500 and the transaction is
never committed. -/
def value_error : ApiError := ⟨500, "ValueError: minute must be in 0..59"⟩

/-- Error responses of `update_order_status`. -/
def wa_order_not_found_err : ApiError := ⟨404, "Not Found"⟩

/-- src/app.py line 261. -/
def wa_invalid_status_err : ApiError := ⟨400, "Invalid status"⟩

/-- The item loop of `place_order` (src/app.py lines 155-170): walks the
requested lines in order; the first line whose item is missing or
unavailable aborts with the conflated 400 error; otherwise each line
becomes an `OrderItem` snapshotting the current price, the total
accumulates price × quantity, and the maximum preparation time is
tracked (starting from 0). -/
def process_items (menu : List MenuItem) (oid : Nat) :
    List ReqItem → Except ApiError (List OrderItem × ℚ × Int)
  | [] => .ok ([], 0, 0)
  | it :: rest =>
    match lookup_item menu it.id with
    | none => .error (not_available_err it)
    | some m =>
      if m.available then
        match process_items menu oid rest with
        | .error e => .error e
        | .ok (ls, t, p) =>
          .ok (⟨oid, m.id, it.quantity, m.price⟩ :: ls,
            m.price * it.quantity + t, max m.preparation_time p)
      else .error (not_available_err it)

/-- `POST /place_order` (src/app.py lines 134-183).  Rejects an empty
item list; inserts a provisional order and flushes to obtain its id;
processes the lines, rolling the whole transaction back on the first bad
line (so the flushed order is discarded and the store is unchanged);
then sets the total and computes the estimated ready time by zeroing the
seconds of `utcnow()` and REPLACING the minute field with `minute +
max_prep_time` — without carrying into the hour, so the write raises
`ValueError` whenever `minute + max_prep_time > 59`, aborting the
uncommitted transaction; otherwise commits order and lines together. -/
def place_order (uid : Nat) (items : List ReqItem) (now : DT) (db : Db) :
    Db × Except ApiError PlaceResp :=
  if items.isEmpty then (db, .error no_items_err)
  else
    let oid := db.next_order_id
    match process_items db.menu oid items with
    | .error e => (db, .error e)
    | .ok (lines, total, max_prep) =>
      let est0 : DT := { now with second := 0 }
      match replace_minute est0 ((est0.minute : Int) + max_prep) with
      | none => (db, .error value_error)
      | some est =>
        let order : Order := ⟨oid, uid, now, "pending", total, some est⟩
        ({ db with
            orders := db.orders ++ [order],
            order_items := db.order_items ++ lines,
            next_order_id := oid + 1 },
          .ok ⟨oid, total, est⟩)

/-- `PUT /api/staff/update_order/id` (src/app.py lines 249-266).  The
order is looked up first (`get_or_404`), then the status vocabulary is
checked; on success only the matching order's status changes. -/
def update_order_status (order_id : Nat) (new_status : String) (db : Db) :
    Db × Except ApiError String :=
  match db.orders.find? (fun o => o.id == order_id) with
  | none => (db, .error wa_order_not_found_err)
  | some _ =>
    if new_status ∈ valid_statuses then
      ({ db with
          orders := db.orders.map (fun p =>
            if p.id == order_id then { p with status := new_status } else p) },
        .ok new_status)
    else (db, .error wa_invalid_status_err)

/-- The partial-update payload of `PUT /api/staff/menu/id`: exactly the
three keys the handler reads (src/app.py lines 277-282). -/
structure MenuUpdate where
  available : Option Bool
  price : Option ℚ
  preparation_time : Option Int
deriving DecidableEq, Repr

/-- Apply the present keys of the update to a menu row. -/
def apply_menu_update (p : MenuUpdate) (m : MenuItem) : MenuItem :=
  let m1 := match p.available with
    | some v => { m with available := v } | none => m
  let m2 := match p.price with
    | some v => { m1 with price := v } | none => m1
  match p.preparation_time with
    | some v => { m2 with preparation_time := v } | none => m2

/-- `PUT /api/staff/menu/id` (src/app.py lines 268-286).  Updates only
the matching menu row; the orders and order_items tables are
untouched. -/
def update_menu_item (item_id : Nat) (p : MenuUpdate) (db : Db) :
    Db × Except ApiError String :=
  match lookup_item db.menu item_id with
  | none => (db, .error ⟨404, "Not Found"⟩)
  | some _ =>
    ({ db with menu := db.menu.map (fun x =>
        if x.id == item_id then apply_menu_update p x else x) },
      .ok "Menu item updated successfully")

end WebApp

/-! ### Spec-side derived quantities and helper lemmas -/

namespace TokenApi

/-- The spec-side value of one requested line: the referenced menu
item's price at submission time times the quantity (0 for a dangling
reference, which a successful creation never contains). -/
def line_value (menu : List MenuItem) (it : OrderItemIn) : ℚ :=
  match lookup_item menu it.item_id with
  | some m => m.price * it.quantity
  | none => 0

/-- The spec-side total of a request: sum over all lines of price at
submission time × quantity. -/
def spec_total (menu : List MenuItem) (its : List OrderItemIn) : ℚ :=
  (its.map (line_value menu)).sum

/-- The persisted line a valid requested line turns into. -/
def line_of (menu : List MenuItem) (oid : Nat) (it : OrderItemIn) : OrderItem :=
  match lookup_item menu it.item_id with
  | some m => ⟨oid, m.id, it.quantity, m.price⟩
  | none => ⟨oid, it.item_id, it.quantity, 0⟩

lemma validate_items_not_found {menu : List MenuItem} {oid : Nat}
    {it : OrderItemIn} (rest : List OrderItemIn)
    (h : lookup_item menu it.item_id = none) :
    validate_items menu oid (it :: rest) = .error (item_not_found_err it.item_id) := by
  simp [validate_items, h]

lemma validate_items_unavailable {menu : List MenuItem} {oid : Nat}
    {it : OrderItemIn} {m : MenuItem} (rest : List OrderItemIn)
    (h : lookup_item menu it.item_id = some m) (hav : m.is_available = false) :
    validate_items menu oid (it :: rest) = .error (item_unavailable_err m.name) := by
  simp [validate_items, h, hav]

lemma validate_items_ok_of_valid (menu : List MenuItem) (oid : Nat) :
    ∀ its : List OrderItemIn,
      (∀ it ∈ its, ∃ m, lookup_item menu it.item_id = some m ∧ m.is_available = true) →
      validate_items menu oid its = .ok (its.map (line_of menu oid))
  | [], _ => rfl
  | it :: rest, h => by
    obtain ⟨m, hm, hav⟩ := h it (List.mem_cons_self it rest)
    have ih := validate_items_ok_of_valid menu oid rest
      (fun x hx => h x (List.mem_cons_of_mem it hx))
    simp [validate_items, hm, hav, ih, line_of]

lemma foldl_add_eq {α : Type} (f : α → ℚ) :
    ∀ (l : List α) (a : ℚ),
      l.foldl (fun acc x => acc + f x) a = a + (l.map f).sum
  | [], a => by simp
  | x :: l, a => by
    simp only [List.foldl_cons, List.map_cons, List.sum_cons,
      foldl_add_eq f l (a + f x)]
    ring

lemma line_of_value (menu : List MenuItem) (oid : Nat) (it : OrderItemIn) :
    (line_of menu oid it).price_at_purchase * ((line_of menu oid it).quantity : ℚ)
      = line_value menu it := by
  unfold line_of line_value
  cases lookup_item menu it.item_id <;> simp

lemma total_eq_spec_total (menu : List MenuItem) (oid : Nat)
    (its : List OrderItemIn) :
    ((its.map (line_of menu oid)).foldl
        (fun acc l => acc + l.price_at_purchase * (l.quantity : ℚ)) 0)
      = spec_total menu its := by
  rw [foldl_add_eq (fun l : OrderItem => l.price_at_purchase * l.quantity),
    zero_add, List.map_map]
  unfold spec_total
  have hfun : ((fun l : OrderItem => l.price_at_purchase * (l.quantity : ℚ)) ∘
      line_of menu oid) = line_value menu := by
    funext it
    simpa [Function.comp] using line_of_value menu oid it
  rw [hfun]

/-- Successful creation fully characterized: the persisted order carries
the rounded spec total, the lines snapshot each item's current price,
and the tables grow by exactly this order and its lines. -/
lemma create_order_ok_of_valid (payload : OrderCreate) (tok : String)
    (now : Nat) (db : Db) (hne : payload.items ≠ [])
    (hvalid : ∀ it ∈ payload.items,
      ∃ m, lookup_item db.menu it.item_id = some m ∧ m.is_available = true) :
    create_order payload tok now db =
      ({ db with
          orders := db.orders ++
            [⟨db.next_order_id, tok, payload.customer_name, payload.phone,
              round2 (spec_total db.menu payload.items), "placed", now⟩],
          order_items := db.order_items ++
            payload.items.map (line_of db.menu db.next_order_id),
          next_order_id := db.next_order_id + 1 },
        .ok ⟨db.next_order_id, tok, payload.customer_name, payload.phone,
          round2 (spec_total db.menu payload.items), "placed", now⟩) := by
  have hval := validate_items_ok_of_valid db.menu db.next_order_id
    payload.items hvalid
  have hne' : payload.items.isEmpty = false := by
    cases h : payload.items with
    | nil => exact absurd h hne
    | cons a l => rfl
  unfold create_order
  rw [hne']
  simp only [Bool.false_eq_true, if_false, hval,
    total_eq_spec_total db.menu db.next_order_id payload.items]

/-- Any failing creation leaves the store untouched. -/
lemma create_order_error_fst (payload : OrderCreate) (tok : String)
    (now : Nat) (db : Db) (e : ApiError)
    (h : (create_order payload tok now db).2 = .error e) :
    (create_order payload tok now db).1 = db := by
  unfold create_order at h ⊢
  by_cases hemp : payload.items.isEmpty
  · simp only [hemp, if_true]
  · simp only [hemp, Bool.false_eq_true, if_false]
    cases hv : validate_items db.menu db.next_order_id payload.items with
    | error e' => simp [hv]
    | ok ls => simp [hemp, hv] at h

end TokenApi

namespace TokenApi

lemma update_status_invalid (oid : Nat) (st : String) (db : Db)
    (h : st ∉ allowed_statuses) :
    update_status oid st db = (db, .error invalid_status_err) := by
  simp [update_status, h]

lemma update_status_not_found (oid : Nat) (st : String) (db : Db)
    (h : st ∈ allowed_statuses)
    (h2 : db.orders.find? (fun o => o.id == oid) = none) :
    update_status oid st db = (db, .error order_not_found_err) := by
  simp [update_status, h, h2]

lemma update_status_found (oid : Nat) (st : String) (db : Db) (o : Order)
    (h : st ∈ allowed_statuses)
    (h2 : db.orders.find? (fun o => o.id == oid) = some o) :
    update_status oid st db =
      ({ db with orders := db.orders.map (fun p =>
          if p.id == oid then { p with status := st } else p) },
        .ok { o with status := st }) := by
  simp [update_status, h, h2]

lemma update_status_error_fst (oid : Nat) (st : String) (db : Db)
    (e : ApiError) (h : (update_status oid st db).2 = .error e) :
    (update_status oid st db).1 = db := by
  unfold update_status at h ⊢
  by_cases hmem : st ∈ allowed_statuses
  · cases h2 : db.orders.find? (fun o => o.id == oid) with
    | none => simp [hmem, h2]
    | some o => simp [hmem, h2] at h
  · simp [hmem]

/-- Overwriting one order's status leaves every order's total amount as
it was. -/
lemma map_set_status_totals (l : List Order) (oid : Nat) (st : String) :
    (l.map (fun p => if p.id == oid then { p with status := st } else p)).map
        (fun p => p.total_amount)
      = l.map (fun p => p.total_amount) := by
  rw [List.map_map]
  have hfun : ((fun p : Order => p.total_amount) ∘
      (fun p : Order => if p.id == oid then { p with status := st } else p)) =
      fun p : Order => p.total_amount := by
    funext p
    by_cases h : p.id = oid <;> simp [h]
  rw [hfun]

/-- Finding by id after the status-overwriting map yields the found
order with its status overwritten. -/
lemma find?_map_set_status (l : List Order) (oid : Nat) (st : String)
    (o : Order) (h : l.find? (fun p => p.id == oid) = some o) :
    (l.map (fun p => if p.id == oid then { p with status := st } else p)).find?
        (fun p => p.id == oid) = some { o with status := st } := by
  induction l with
  | nil => simp at h
  | cons x xs ih =>
    rw [List.find?_cons] at h
    cases hx : (x.id == oid) with
    | true =>
      rw [hx] at h
      injection h with h
      subst h
      simp only [List.map_cons, List.find?_cons, hx, if_true]
    | false =>
      rw [hx] at h
      have h' : xs.find? (fun p => p.id == oid) = some o := h
      simp only [List.map_cons, List.find?_cons, hx, Bool.false_eq_true,
        if_false]
      exact ih h'

lemma update_menu_item_frame (iid : Int) (p : MenuItemUpdate) (db : Db) :
    (update_menu_item iid p db).1.orders = db.orders ∧
      (update_menu_item iid p db).1.order_items = db.order_items := by
  unfold update_menu_item
  cases lookup_item db.menu iid <;> simp

lemma delete_menu_item_frame (iid : Int) (db : Db) :
    (delete_menu_item iid db).1.orders = db.orders ∧
      (delete_menu_item iid db).1.order_items = db.order_items := by
  unfold delete_menu_item
  cases lookup_item db.menu iid <;> simp

lemma status_by_token_no_match (tok : String) (db : Db)
    (h : db.orders.filter (fun o => o.token == tok) = []) :
    status_by_token tok db = .error invalid_token_err := by
  simp [status_by_token, h]

lemma status_by_token_terminal (tok : String) (db : Db) (o : Order)
    (h : db.orders.filter (fun o => o.token == tok) = [o])
    (ht : o.status ∈ terminal_statuses) :
    status_by_token tok db = .ok ⟨o.id, o.token, o.status, 0⟩ := by
  simp [status_by_token, h, ht]

lemma status_by_token_active (tok : String) (db : Db) (o : Order)
    (h : db.orders.filter (fun o => o.token == tok) = [o])
    (ht : o.status ∉ terminal_statuses) :
    status_by_token tok db = .ok ⟨o.id, o.token, o.status,
      (db.orders.filter (fun p =>
        decide (p.created_at ≤ o.created_at)
          && active_statuses.contains p.status)).length⟩ := by
  simp [status_by_token, h, ht]

end TokenApi

namespace WebApp

/-- The spec-side value of one requested line in the Flask variant. -/
def line_value (menu : List MenuItem) (it : ReqItem) : ℚ :=
  match lookup_item menu it.id with
  | some m => m.price * it.quantity
  | none => 0

/-- The spec-side total of a request: sum over all lines of price at
submission time × quantity. -/
def spec_total (menu : List MenuItem) (its : List ReqItem) : ℚ :=
  (its.map (line_value menu)).sum

/-- The persisted line a valid requested line turns into. -/
def line_of (menu : List MenuItem) (oid : Nat) (it : ReqItem) : OrderItem :=
  match lookup_item menu it.id with
  | some m => ⟨oid, m.id, it.quantity, m.price⟩
  | none => ⟨oid, it.id, it.quantity, 0⟩

/-- Preparation time of the referenced item (0 for a dangling
reference). -/
def prep_of (menu : List MenuItem) (it : ReqItem) : Int :=
  match lookup_item menu it.id with
  | some m => m.preparation_time
  | none => 0

/-- The running maximum `max_prep_time` the loop of `place_order`
computes, starting from 0. -/
def max_prep (menu : List MenuItem) (its : List ReqItem) : Int :=
  its.foldr (fun it acc => max (prep_of menu it) acc) 0

lemma max_prep_nonneg (menu : List MenuItem) :
    ∀ its : List ReqItem, 0 ≤ max_prep menu its
  | [] => le_refl 0
  | it :: rest =>
    le_trans (max_prep_nonneg menu rest)
      (by simp only [max_prep, List.foldr_cons]; exact le_max_right _ _)

lemma process_items_not_found {menu : List MenuItem} {oid : Nat}
    {it : ReqItem} (rest : List ReqItem)
    (h : lookup_item menu it.id = none) :
    process_items menu oid (it :: rest) = .error (not_available_err it) := by
  simp [process_items, h]

lemma process_items_unavailable {menu : List MenuItem} {oid : Nat}
    {it : ReqItem} {m : MenuItem} (rest : List ReqItem)
    (h : lookup_item menu it.id = some m) (hav : m.available = false) :
    process_items menu oid (it :: rest) = .error (not_available_err it) := by
  simp [process_items, h, hav]

lemma process_items_ok_of_valid (menu : List MenuItem) (oid : Nat) :
    ∀ its : List ReqItem,
      (∀ it ∈ its, ∃ m, lookup_item menu it.id = some m ∧ m.available = true) →
      process_items menu oid its =
        .ok (its.map (line_of menu oid), spec_total menu its, max_prep menu its)
  | [], _ => by simp [process_items, spec_total, max_prep]
  | it :: rest, h => by
    obtain ⟨m, hm, hav⟩ := h it (List.mem_cons_self it rest)
    have ih := process_items_ok_of_valid menu oid rest
      (fun x hx => h x (List.mem_cons_of_mem it hx))
    simp only [process_items, hm, hav, ih, if_true]
    simp [line_of, hm, spec_total, line_value, max_prep, prep_of]

/-- Successful placement fully characterized: the persisted order
carries the exact (unrounded) spec total and an estimated time whose
hour field is untouched and whose minute field is `now.minute +
max_prep` (only well-defined under the 59-minute bound). -/
lemma place_order_ok_of_valid (uid : Nat) (items : List ReqItem) (now : DT)
    (db : Db) (hne : items ≠ [])
    (hvalid : ∀ it ∈ items,
      ∃ m, lookup_item db.menu it.id = some m ∧ m.available = true)
    (hbound : (now.minute : Int) + max_prep db.menu items ≤ 59) :
    place_order uid items now db =
      ({ db with
          orders := db.orders ++ [⟨db.next_order_id, uid, now, "pending",
            spec_total db.menu items,
            some ⟨now.hour,
              ((now.minute : Int) + max_prep db.menu items).toNat, 0⟩⟩],
          order_items := db.order_items ++
            items.map (line_of db.menu db.next_order_id),
          next_order_id := db.next_order_id + 1 },
        .ok ⟨db.next_order_id, spec_total db.menu items,
          ⟨now.hour, ((now.minute : Int) + max_prep db.menu items).toNat, 0⟩⟩) := by
  have hproc := process_items_ok_of_valid db.menu db.next_order_id items hvalid
  have hne' : items.isEmpty = false := by
    cases h : items with
    | nil => exact absurd h hne
    | cons a l => rfl
  have h0 : (0 : Int) ≤ (now.minute : Int) + max_prep db.menu items :=
    add_nonneg (Int.ofNat_nonneg _) (max_prep_nonneg db.menu items)
  unfold place_order
  rw [hne']
  simp only [Bool.false_eq_true, if_false, hproc, replace_minute]
  rw [if_pos ⟨h0, hbound⟩]

/-- Any failing placement leaves the store untouched (the provisional
flushed order is rolled back or never committed). -/
lemma place_order_error_fst (uid : Nat) (items : List ReqItem) (now : DT)
    (db : Db) (e : ApiError)
    (h : (place_order uid items now db).2 = .error e) :
    (place_order uid items now db).1 = db := by
  unfold place_order at h ⊢
  by_cases hemp : items.isEmpty
  · simp [hemp]
  · cases hv : process_items db.menu db.next_order_id items with
    | error e' => simp [hemp, hv]
    | ok t =>
      obtain ⟨ls, tt, p⟩ := t
      cases hr : replace_minute { now with second := 0 }
          (({ now with second := 0 } : DT).minute + p) with
      | none => simp [hemp, hv, hr]
      | some est => simp [hemp, hv, hr] at h

lemma update_order_status_not_found (oid : Nat) (st : String) (db : Db)
    (h : db.orders.find? (fun o => o.id == oid) = none) :
    update_order_status oid st db = (db, .error wa_order_not_found_err) := by
  simp [update_order_status, h]

lemma update_order_status_invalid (oid : Nat) (st : String) (db : Db)
    (o : Order) (h : db.orders.find? (fun o => o.id == oid) = some o)
    (hst : st ∉ valid_statuses) :
    update_order_status oid st db = (db, .error wa_invalid_status_err) := by
  simp [update_order_status, h, hst]

lemma update_order_status_found (oid : Nat) (st : String) (db : Db)
    (o : Order) (h : db.orders.find? (fun o => o.id == oid) = some o)
    (hst : st ∈ valid_statuses) :
    update_order_status oid st db =
      ({ db with orders := db.orders.map (fun p =>
          if p.id == oid then { p with status := st } else p) },
        .ok st) := by
  simp [update_order_status, h, hst]

lemma update_order_status_error_fst (oid : Nat) (st : String) (db : Db)
    (e : ApiError) (h : (update_order_status oid st db).2 = .error e) :
    (update_order_status oid st db).1 = db := by
  unfold update_order_status at h ⊢
  cases h2 : db.orders.find? (fun o => o.id == oid) with
  | none => simp [h2]
  | some o =>
    by_cases hmem : st ∈ valid_statuses
    · simp [h2, hmem] at h
    · simp [h2, hmem]

/-- Overwriting one order's status leaves every order's total amount as
it was (Flask variant). -/
lemma wa_map_set_status_totals (l : List Order) (oid : Nat) (st : String) :
    (l.map (fun p => if p.id == oid then { p with status := st } else p)).map
        (fun p => p.total_amount)
      = l.map (fun p => p.total_amount) := by
  rw [List.map_map]
  have hfun : ((fun p : Order => p.total_amount) ∘
      (fun p : Order => if p.id == oid then { p with status := st } else p)) =
      fun p : Order => p.total_amount := by
    funext p
    by_cases h : p.id = oid <;> simp [h]
  rw [hfun]

/-- Finding by id after the status-overwriting map yields the found
order with its status overwritten (Flask variant). -/
lemma wa_find_map_set_status (l : List Order) (oid : Nat) (st : String)
    (o : Order) (h : l.find? (fun p => p.id == oid) = some o) :
    (l.map (fun p => if p.id == oid then { p with status := st } else p)).find?
        (fun p => p.id == oid) = some { o with status := st } := by
  induction l with
  | nil => simp at h
  | cons x xs ih =>
    rw [List.find?_cons] at h
    cases hx : (x.id == oid) with
    | true =>
      rw [hx] at h
      injection h with h
      subst h
      simp only [List.map_cons, List.find?_cons, hx, if_true]
    | false =>
      rw [hx] at h
      have h' : xs.find? (fun p => p.id == oid) = some o := h
      simp only [List.map_cons, List.find?_cons, hx, Bool.false_eq_true,
        if_false]
      exact ih h'

lemma wa_update_menu_item_frame (iid : Nat) (p : MenuUpdate) (db : Db) :
    (update_menu_item iid p db).1.orders = db.orders ∧
      (update_menu_item iid p db).1.order_items = db.order_items := by
  unfold update_menu_item
  cases lookup_item db.menu iid <;> simp

end WebApp

namespace TokenApi

lemma update_status_fst_totals (oid : Nat) (st : String) (db : Db) :
    (update_status oid st db).1.orders.map (fun p => p.total_amount)
      = db.orders.map (fun p => p.total_amount) := by
  by_cases hmem : st ∈ allowed_statuses
  · cases h2 : db.orders.find? (fun o => o.id == oid) with
    | none => rw [update_status_not_found oid st db hmem h2]
    | some o =>
      rw [update_status_found oid st db o hmem h2]
      exact map_set_status_totals db.orders oid st
  · rw [update_status_invalid oid st db hmem]

lemma update_status_fst_order_items (oid : Nat) (st : String) (db : Db) :
    (update_status oid st db).1.order_items = db.order_items := by
  by_cases hmem : st ∈ allowed_statuses
  · cases h2 : db.orders.find? (fun o => o.id == oid) with
    | none => rw [update_status_not_found oid st db hmem h2]
    | some o => rw [update_status_found oid st db o hmem h2]
  · rw [update_status_invalid oid st db hmem]

lemma create_order_snd_of_validate_error (payload : OrderCreate)
    (tok : String) (now : Nat) (db : Db) (e : ApiError)
    (hne : payload.items ≠ [])
    (h : validate_items db.menu db.next_order_id payload.items = .error e) :
    (create_order payload tok now db).2 = .error e := by
  have hne' : payload.items.isEmpty = false := by
    cases hh : payload.items with
    | nil => exact absurd hh hne
    | cons a l => rfl
  unfold create_order
  rw [hne']
  simp [h]

lemma lookup_filter_ne (menu : List MenuItem) (iid : Int) :
    lookup_item (menu.filter (fun m => !(m.id == iid))) iid = none := by
  unfold lookup_item
  rw [List.find?_eq_none]
  intro m hm
  have hmem := List.of_mem_filter hm
  simp only [Bool.not_eq_true'] at hmem
  simp [hmem]

lemma delete_menu_item_found (iid : Int) (db : Db) (m : MenuItem)
    (h : lookup_item db.menu iid = some m) :
    delete_menu_item iid db =
      ({ db with menu := db.menu.filter (fun m => !(m.id == iid)) },
        .ok iid) := by
  simp [delete_menu_item, h]

end TokenApi

namespace WebApp

lemma update_order_status_fst_totals (oid : Nat) (st : String) (db : Db) :
    (update_order_status oid st db).1.orders.map (fun p => p.total_amount)
      = db.orders.map (fun p => p.total_amount) := by
  cases h2 : db.orders.find? (fun o => o.id == oid) with
  | none => rw [update_order_status_not_found oid st db h2]
  | some o =>
    by_cases hmem : st ∈ valid_statuses
    · rw [update_order_status_found oid st db o h2 hmem]
      exact wa_map_set_status_totals db.orders oid st
    · rw [update_order_status_invalid oid st db o h2 hmem]

lemma update_order_status_fst_order_items (oid : Nat) (st : String) (db : Db) :
    (update_order_status oid st db).1.order_items = db.order_items := by
  cases h2 : db.orders.find? (fun o => o.id == oid) with
  | none => rw [update_order_status_not_found oid st db h2]
  | some o =>
    by_cases hmem : st ∈ valid_statuses
    · rw [update_order_status_found oid st db o h2 hmem]
    · rw [update_order_status_invalid oid st db o h2 hmem]

lemma place_order_snd_of_process_error (uid : Nat) (items : List ReqItem)
    (now : DT) (db : Db) (e : ApiError) (hne : items ≠ [])
    (h : process_items db.menu db.next_order_id items = .error e) :
    (place_order uid items now db).2 = .error e := by
  have hne' : items.isEmpty = false := by
    cases hh : items with
    | nil => exact absurd hh hne
    | cons a l => rfl
  unfold place_order
  rw [hne']
  simp [h]

end WebApp

/-! ### Concrete scenarios used by witnesses and counterexamples -/

/-- Token-variant catalog holding the spec's example item
(id 1, "Veg Burger", 5.99, available). -/
def vegDb : TokenApi.Db :=
  { menu := [⟨1, "Veg Burger", 599/100, true⟩],
    orders := [], order_items := [], next_order_id := 1 }

/-- The spec's order-creation example request: Veg Burger × 2. -/
def vegReq : TokenApi.OrderCreate := ⟨none, none, [⟨1, 2⟩]⟩

/-- Token-variant catalog with a sub-cent price; the spec constrains a
unit price only to be a non-negative decimal. -/
def subCentDb : TokenApi.Db :=
  { menu := [⟨1, "Sample", 1/1000, true⟩],
    orders := [], order_items := [], next_order_id := 1 }

/-- Three sequentially placed orders, all still in the initial
status. -/
def queueDb : TokenApi.Db :=
  { menu := [],
    orders := [⟨1, "AAA111", none, none, 5, "placed", 1⟩,
               ⟨2, "BBB222", none, none, 5, "placed", 2⟩,
               ⟨3, "CCC333", none, none, 5, "placed", 3⟩],
    order_items := [], next_order_id := 4 }

/-- Flask-variant catalog with one available and one unavailable
item. -/
def mixedDb : WebApp.Db :=
  { menu := [⟨1, "Coke", 299/100, true, 1⟩,
             ⟨2, "Veg Burger", 599/100, false, 10⟩],
    orders := [], order_items := [], next_order_id := 1 }

/-- The spec's atomicity example request: available item × 2 followed by
unavailable item × 1. -/
def mixedItems : List WebApp.ReqItem :=
  [⟨1, 2, some "Coke"⟩, ⟨2, 1, some "Veg Burger"⟩]

/-- Token-variant catalog with a single unavailable item. -/
def unavailDb : TokenApi.Db :=
  { menu := [⟨7, "Onion Rings", 499/100, false⟩],
    orders := [], order_items := [], next_order_id := 1 }

/-- Token-variant store with one placed order whose single line
references menu item 1. -/
def referencedDb : TokenApi.Db :=
  { menu := [⟨1, "Veg Burger", 599/100, true⟩],
    orders := [⟨1, "TOK", none, none, 1198/100, "placed", 1⟩],
    order_items := [⟨1, 1, 2, 599/100⟩],
    next_order_id := 2 }

/-- Flask-variant catalog with one item of 10-minute preparation
time. -/
def prepDb : WebApp.Db :=
  { menu := [⟨1, "Veg Burger", 599/100, true, 10⟩],
    orders := [], order_items := [], next_order_id := 1 }

/-- Token-variant store with a single placed order, id 1. -/
def statusDb : TokenApi.Db :=
  { menu := [], orders := [⟨1, "SSS111", none, none, 5, "placed", 1⟩],
    order_items := [], next_order_id := 2 }

/-! ### Claims -/

/-- Claim C1: for every order queried by token via `status_by_token`, if
no order carries the token the call fails with InvalidToken; if exactly
one does, the returned queue position is 0 when its status is ready,
completed or cancelled, and otherwise equals the count of orders whose
creation timestamp is at most this order's and whose status is in the
active set placed/preparing. -/
theorem c1_queue_position_spec :
    ∀ (db : TokenApi.Db) (tok : String),
      (db.orders.filter (fun o => o.token == tok) = [] →
        TokenApi.status_by_token tok db = .error TokenApi.invalid_token_err) ∧
      (∀ o : TokenApi.Order,
        db.orders.filter (fun o => o.token == tok) = [o] →
        (o.status ∈ TokenApi.terminal_statuses →
          TokenApi.status_by_token tok db = .ok ⟨o.id, o.token, o.status, 0⟩) ∧
        (o.status ∉ TokenApi.terminal_statuses →
          TokenApi.status_by_token tok db = .ok ⟨o.id, o.token, o.status,
            (db.orders.filter (fun p =>
              decide (p.created_at ≤ o.created_at)
                && TokenApi.active_statuses.contains p.status)).length⟩)) := by
  intro db tok
  exact ⟨TokenApi.status_by_token_no_match tok db,
    fun o h =>
      ⟨fun ht => TokenApi.status_by_token_terminal tok db o h ht,
        fun ht => TokenApi.status_by_token_active tok db o h ht⟩⟩

/-- Witness for C1: with three sequentially placed orders, all still in
the initial status, the queue position of the second is 2. -/
theorem c1_queue_position_spec_witness :
    TokenApi.status_by_token "BBB222" queueDb =
      .ok ⟨2, "BBB222", "placed", 2⟩ := by
  have h := ((c1_queue_position_spec queueDb "BBB222").2
      ⟨2, "BBB222", none, none, 5, "placed", 2⟩ rfl).2 (by decide)
  rw [h]
  with_unfolding_all rfl

/-- Claim C3: every order-creation request that fails validation leaves
the Order Store exactly as it was — no order and no order line is
persisted, in either variant. -/
theorem c3_failed_creation_persists_nothing :
    (∀ (payload : TokenApi.OrderCreate) (tok : String) (now : Nat)
        (db : TokenApi.Db) (e : ApiError),
      (TokenApi.create_order payload tok now db).2 = .error e →
      (TokenApi.create_order payload tok now db).1 = db) ∧
    (∀ (uid : Nat) (items : List WebApp.ReqItem) (now : WebApp.DT)
        (db : WebApp.Db) (e : ApiError),
      (WebApp.place_order uid items now db).2 = .error e →
      (WebApp.place_order uid items now db).1 = db) :=
  ⟨TokenApi.create_order_error_fst, WebApp.place_order_error_fst⟩

/-- Witness for C3: ordering available Coke × 2 together with
unavailable Veg Burger × 1 fails and creates zero orders — the store
after the call is the store before it. -/
theorem c3_failed_creation_persists_nothing_witness :
    (WebApp.place_order 1 mixedItems ⟨12, 0, 0⟩ mixedDb).2 =
      .error (WebApp.not_available_err ⟨2, 1, some "Veg Burger"⟩) ∧
    (WebApp.place_order 1 mixedItems ⟨12, 0, 0⟩ mixedDb).1 = mixedDb :=
  ⟨rfl, c3_failed_creation_persists_nothing.2 1 mixedItems ⟨12, 0, 0⟩ mixedDb
    (WebApp.not_available_err ⟨2, 1, some "Veg Burger"⟩) rfl⟩

/-- Claim C6: order creation with zero lines fails with the EmptyOrder
rejection and creates nothing, in both variants. -/
theorem c6_empty_order_rejected :
    (∀ (cn ph : Option String) (tok : String) (now : Nat)
        (db : TokenApi.Db),
      TokenApi.create_order ⟨cn, ph, []⟩ tok now db =
        (db, .error TokenApi.empty_order_err)) ∧
    (∀ (uid : Nat) (now : WebApp.DT) (db : WebApp.Db),
      WebApp.place_order uid [] now db = (db, .error WebApp.no_items_err)) := by
  constructor
  · intro cn ph tok now db
    rfl
  · intro uid now db
    rfl

/-- Claim C7: the staff menu-update operation (availability, price,
preparation-time changes) leaves the orders and order-lines tables of
either variant untouched, so every captured line price and every
previously computed total is unchanged. -/
theorem c7_menu_update_preserves_orders :
    (∀ (iid : Int) (p : TokenApi.MenuItemUpdate) (db : TokenApi.Db),
      (TokenApi.update_menu_item iid p db).1.orders = db.orders ∧
      (TokenApi.update_menu_item iid p db).1.order_items = db.order_items) ∧
    (∀ (iid : Nat) (p : WebApp.MenuUpdate) (db : WebApp.Db),
      (WebApp.update_menu_item iid p db).1.orders = db.orders ∧
      (WebApp.update_menu_item iid p db).1.order_items = db.order_items) :=
  ⟨TokenApi.update_menu_item_frame, WebApp.wa_update_menu_item_frame⟩

/-- Claim C8 (code bug): `place_order` writes the estimated ready time
with `datetime.replace(minute=minute + max_prep_time)`, which does not
carry into the hour: a perfectly valid order of one available item with
a 10-minute preparation time crashes with ValueError at 12:55 (the
uncommitted transaction is discarded), while the same order at 12:20
succeeds with the estimate 12:30 the claim describes. -/
theorem c8_estimated_time_crashes_crossing_hour :
    (WebApp.place_order 1 [⟨1, 1, none⟩] ⟨12, 55, 0⟩ prepDb).2 =
      .error WebApp.value_error ∧
    (WebApp.place_order 1 [⟨1, 1, none⟩] ⟨12, 55, 0⟩ prepDb).1 = prepDb ∧
    (WebApp.place_order 1 [⟨1, 1, none⟩] ⟨12, 20, 0⟩ prepDb).2 =
      .ok ⟨1, 599/100, ⟨12, 30, 0⟩⟩ := by
  refine ⟨rfl, rfl, ?_⟩
  with_unfolding_all rfl

/-- Counterexample for C9: deleting menu item 1 succeeds although a
historical order line still references it; afterwards the line's
captured price is still stored but the item can no longer be resolved in
the menu, so its name is lost (the line stores no name). -/
theorem c9_delete_while_referenced_counterexample :
    (TokenApi.delete_menu_item 1 referencedDb).2 = .ok 1 ∧
    (TokenApi.delete_menu_item 1 referencedDb).1.order_items =
      [⟨1, 1, 2, 599/100⟩] ∧
    TokenApi.lookup_item (TokenApi.delete_menu_item 1 referencedDb).1.menu 1 =
      none :=
  ⟨rfl, rfl, rfl⟩

/-- Claim C9 as amended: `delete_menu_item` deletes an existing MenuItem
unconditionally, with no referential check against historical order
lines; order lines snapshot only the unit price (which survives the
deletion, the orders and order-lines tables being untouched), not the
item name, which becomes unresolvable once the item is gone. -/
theorem c9_delete_unchecked_price_only_snapshot :
    ∀ (iid : Int) (db : TokenApi.Db) (m : TokenApi.MenuItem),
      TokenApi.lookup_item db.menu iid = some m →
      (TokenApi.delete_menu_item iid db).2 = .ok iid ∧
      TokenApi.lookup_item (TokenApi.delete_menu_item iid db).1.menu iid =
        none ∧
      (TokenApi.delete_menu_item iid db).1.orders = db.orders ∧
      (TokenApi.delete_menu_item iid db).1.order_items = db.order_items := by
  intro iid db m h
  rw [TokenApi.delete_menu_item_found iid db m h]
  exact ⟨rfl, TokenApi.lookup_filter_ne db.menu iid, rfl, rfl⟩

/-- Witness for the amended C9 at the referenced-order store. -/
theorem c9_delete_unchecked_price_only_snapshot_witness :
    (TokenApi.delete_menu_item 1 referencedDb).2 = .ok 1 ∧
    TokenApi.lookup_item (TokenApi.delete_menu_item 1 referencedDb).1.menu 1 =
      none ∧
    (TokenApi.delete_menu_item 1 referencedDb).1.orders =
      referencedDb.orders ∧
    (TokenApi.delete_menu_item 1 referencedDb).1.order_items =
      referencedDb.order_items :=
  c9_delete_unchecked_price_only_snapshot 1 referencedDb
    ⟨1, "Veg Burger", 599/100, true⟩ rfl

/-- Counterexample for C2: the token variant persists `round(total, 2)`,
not the exact sum of captured price × quantity.  With a menu item priced
0.001 (the spec constrains prices only to non-negative decimals),
creating an order of one unit succeeds with persisted total 0, while the
sum of the referenced item's price at submission time times the quantity
is 0.001. -/
theorem c2_exact_total_counterexample :
    (TokenApi.create_order ⟨none, none, [⟨1, 1⟩]⟩ "TOK001" 10 subCentDb).2 =
      .ok ⟨1, "TOK001", none, none, 0, "placed", 10⟩ ∧
    TokenApi.spec_total subCentDb.menu [⟨1, 1⟩] = 1/1000 ∧
    (0 : ℚ) ≠ 1/1000 := by
  refine ⟨?_, ?_, by norm_num⟩
  · with_unfolding_all rfl
  · with_unfolding_all rfl

/-- Claim C2 as amended: for every successfully created order, the
persisted total is the sum over all lines of the referenced item's price
at submission time × quantity, rounded to two decimals in the token
variant (`round(total, 2)`) and exact in the Flask variant; it is
computed once at creation and no later operation (status update, staff
menu update) recomputes it — every stored total and order line is
unchanged by them. -/
theorem c2_total_captured_once :
    (∀ (payload : TokenApi.OrderCreate) (tok : String) (now : Nat)
        (db : TokenApi.Db),
      payload.items ≠ [] →
      (∀ it ∈ payload.items, ∃ m,
        TokenApi.lookup_item db.menu it.item_id = some m ∧
          m.is_available = true) →
      (TokenApi.create_order payload tok now db).2 =
        .ok ⟨db.next_order_id, tok, payload.customer_name, payload.phone,
          round2 (TokenApi.spec_total db.menu payload.items), "placed", now⟩) ∧
    (∀ (uid : Nat) (items : List WebApp.ReqItem) (now : WebApp.DT)
        (db : WebApp.Db),
      items ≠ [] →
      (∀ it ∈ items, ∃ m,
        WebApp.lookup_item db.menu it.id = some m ∧ m.available = true) →
      (now.minute : Int) + WebApp.max_prep db.menu items ≤ 59 →
      (WebApp.place_order uid items now db).2 =
        .ok ⟨db.next_order_id, WebApp.spec_total db.menu items,
          ⟨now.hour,
            ((now.minute : Int) + WebApp.max_prep db.menu items).toNat, 0⟩⟩) ∧
    (∀ (oid : Nat) (st : String) (db : TokenApi.Db),
      (TokenApi.update_status oid st db).1.orders.map (fun p => p.total_amount)
          = db.orders.map (fun p => p.total_amount) ∧
        (TokenApi.update_status oid st db).1.order_items = db.order_items) ∧
    (∀ (oid : Nat) (st : String) (db : WebApp.Db),
      (WebApp.update_order_status oid st db).1.orders.map
            (fun p => p.total_amount)
          = db.orders.map (fun p => p.total_amount) ∧
        (WebApp.update_order_status oid st db).1.order_items
          = db.order_items) ∧
    (∀ (iid : Int) (p : TokenApi.MenuItemUpdate) (db : TokenApi.Db),
      (TokenApi.update_menu_item iid p db).1.orders = db.orders ∧
      (TokenApi.update_menu_item iid p db).1.order_items = db.order_items) ∧
    (∀ (iid : Nat) (p : WebApp.MenuUpdate) (db : WebApp.Db),
      (WebApp.update_menu_item iid p db).1.orders = db.orders ∧
      (WebApp.update_menu_item iid p db).1.order_items = db.order_items) := by
  refine ⟨?_, ?_, ?_, ?_, TokenApi.update_menu_item_frame,
    WebApp.wa_update_menu_item_frame⟩
  · intro payload tok now db hne hvalid
    rw [TokenApi.create_order_ok_of_valid payload tok now db hne hvalid]
  · intro uid items now db hne hvalid hbound
    rw [WebApp.place_order_ok_of_valid uid items now db hne hvalid hbound]
  · intro oid st db
    exact ⟨TokenApi.update_status_fst_totals oid st db,
      TokenApi.update_status_fst_order_items oid st db⟩
  · intro oid st db
    exact ⟨WebApp.update_order_status_fst_totals oid st db,
      WebApp.update_order_status_fst_order_items oid st db⟩

/-- Witness for the amended C2: the spec's example, Veg Burger (5.99)
× 2, persists total 11.98. -/
theorem c2_total_captured_once_witness :
    (TokenApi.create_order vegReq "TOK123" 5 vegDb).2 =
      .ok ⟨1, "TOK123", none, none,
        round2 (TokenApi.spec_total vegDb.menu vegReq.items), "placed", 5⟩ ∧
    round2 (TokenApi.spec_total vegDb.menu vegReq.items) = 1198/100 := by
  constructor
  · exact c2_total_captured_once.1 vegReq "TOK123" 5 vegDb
      (by simp [vegReq])
      (by
        intro it hit
        simp [vegReq] at hit
        subst hit
        exact ⟨⟨1, "Veg Burger", 599/100, true⟩, rfl, rfl⟩)
  · with_unfolding_all rfl

/-- Counterexample for C4: the Flask variant conflates the two failure
kinds.  A line referencing a nonexistent item id (99) and a line
referencing an existing but unavailable item (2) both produce the very
same 400 response, built from the request-provided name, so the caller
cannot distinguish ItemNotFound from ItemUnavailable. -/
theorem c4_conflated_errors_counterexample :
    (WebApp.place_order 1 [⟨99, 1, some "Veg Burger"⟩] ⟨12, 0, 0⟩
        mixedDb).2 = .error ⟨400, "Item Veg Burger not available"⟩ ∧
    (WebApp.place_order 1 [⟨2, 1, some "Veg Burger"⟩] ⟨12, 0, 0⟩
        mixedDb).2 = .error ⟨400, "Item Veg Burger not available"⟩ :=
  ⟨rfl, rfl⟩

/-- Claim C4 as amended: the token variant distinguishes the two failure
kinds — a nonexistent item yields 404 naming the offending item id, an
unavailable one yields 400 naming the item, and no two such responses
coincide; the Flask variant instead returns one and the same 400
"not available" response for both causes, identifying the item only by
the request-provided name. -/
theorem c4_item_errors_distinct_in_token_variant :
    (∀ (cn ph : Option String) (tok : String) (now : Nat)
        (db : TokenApi.Db) (it : TokenApi.OrderItemIn)
        (rest : List TokenApi.OrderItemIn),
      (TokenApi.lookup_item db.menu it.item_id = none →
        (TokenApi.create_order ⟨cn, ph, it :: rest⟩ tok now db).2 =
          .error (TokenApi.item_not_found_err it.item_id)) ∧
      (∀ m, TokenApi.lookup_item db.menu it.item_id = some m →
        m.is_available = false →
        (TokenApi.create_order ⟨cn, ph, it :: rest⟩ tok now db).2 =
          .error (TokenApi.item_unavailable_err m.name))) ∧
    (∀ (i : Int) (n : String),
      TokenApi.item_not_found_err i ≠ TokenApi.item_unavailable_err n) ∧
    (∀ (uid : Nat) (now : WebApp.DT) (db : WebApp.Db)
        (it : WebApp.ReqItem) (rest : List WebApp.ReqItem),
      (WebApp.lookup_item db.menu it.id = none →
        (WebApp.place_order uid (it :: rest) now db).2 =
          .error (WebApp.not_available_err it)) ∧
      (∀ m, WebApp.lookup_item db.menu it.id = some m →
        m.available = false →
        (WebApp.place_order uid (it :: rest) now db).2 =
          .error (WebApp.not_available_err it))) := by
  refine ⟨?_, ?_, ?_⟩
  · intro cn ph tok now db it rest
    constructor
    · intro h
      exact TokenApi.create_order_snd_of_validate_error ⟨cn, ph, it :: rest⟩
        tok now db _ (by simp) (TokenApi.validate_items_not_found rest h)
    · intro m hm hav
      exact TokenApi.create_order_snd_of_validate_error ⟨cn, ph, it :: rest⟩
        tok now db _ (by simp) (TokenApi.validate_items_unavailable rest hm hav)
  · intro i n h
    simp [TokenApi.item_not_found_err, TokenApi.item_unavailable_err] at h
  · intro uid now db it rest
    constructor
    · intro h
      exact WebApp.place_order_snd_of_process_error uid (it :: rest) now db _
        (by simp) (WebApp.process_items_not_found rest h)
    · intro m hm hav
      exact WebApp.place_order_snd_of_process_error uid (it :: rest) now db _
        (by simp) (WebApp.process_items_unavailable rest hm hav)

/-- Witness for the amended C4 in the token variant: the nonexistent
item 99 is rejected 404 with its id, the unavailable item 7 is rejected
400 with its name. -/
theorem c4_item_errors_distinct_in_token_variant_witness :
    (TokenApi.create_order ⟨none, none, [⟨99, 1⟩]⟩ "T" 0 unavailDb).2 =
      .error (TokenApi.item_not_found_err 99) ∧
    (TokenApi.create_order ⟨none, none, [⟨7, 2⟩]⟩ "T" 0 unavailDb).2 =
      .error (TokenApi.item_unavailable_err "Onion Rings") := by
  constructor
  · exact (c4_item_errors_distinct_in_token_variant.1 none none "T" 0
      unavailDb ⟨99, 1⟩ []).1 rfl
  · exact (c4_item_errors_distinct_in_token_variant.1 none none "T" 0
      unavailDb ⟨7, 2⟩ []).2 ⟨7, "Onion Rings", 499/100, false⟩ rfl rfl

/-- Claim C5: `update_status` rejects a status outside the fixed
vocabulary with InvalidStatus and a missing order with OrderNotFound
(the token variant checks the vocabulary first, the Flask variant looks
the order up first); any failure leaves every stored order — in
particular every status — unchanged, and on success the order's status
equals the requested value. -/
theorem c5_update_status_validation :
    (∀ (oid : Nat) (st : String) (db : TokenApi.Db),
      (st ∉ TokenApi.allowed_statuses →
        TokenApi.update_status oid st db =
          (db, .error TokenApi.invalid_status_err)) ∧
      (st ∈ TokenApi.allowed_statuses →
        db.orders.find? (fun o => o.id == oid) = none →
        TokenApi.update_status oid st db =
          (db, .error TokenApi.order_not_found_err)) ∧
      (∀ e, (TokenApi.update_status oid st db).2 = .error e →
        (TokenApi.update_status oid st db).1 = db) ∧
      (∀ o, st ∈ TokenApi.allowed_statuses →
        db.orders.find? (fun o => o.id == oid) = some o →
        (TokenApi.update_status oid st db).2 = .ok { o with status := st } ∧
        (TokenApi.update_status oid st db).1.orders.find?
            (fun p => p.id == oid) = some { o with status := st })) ∧
    (∀ (oid : Nat) (st : String) (db : WebApp.Db),
      (db.orders.find? (fun o => o.id == oid) = none →
        WebApp.update_order_status oid st db =
          (db, .error WebApp.wa_order_not_found_err)) ∧
      (∀ o, db.orders.find? (fun o => o.id == oid) = some o →
        st ∉ WebApp.valid_statuses →
        WebApp.update_order_status oid st db =
          (db, .error WebApp.wa_invalid_status_err)) ∧
      (∀ e, (WebApp.update_order_status oid st db).2 = .error e →
        (WebApp.update_order_status oid st db).1 = db) ∧
      (∀ o, st ∈ WebApp.valid_statuses →
        db.orders.find? (fun o => o.id == oid) = some o →
        (WebApp.update_order_status oid st db).2 = .ok st ∧
        (WebApp.update_order_status oid st db).1.orders.find?
            (fun p => p.id == oid) = some { o with status := st })) := by
  constructor
  · intro oid st db
    refine ⟨TokenApi.update_status_invalid oid st db,
      TokenApi.update_status_not_found oid st db,
      TokenApi.update_status_error_fst oid st db, ?_⟩
    intro o hmem h2
    constructor
    · rw [TokenApi.update_status_found oid st db o hmem h2]
    · rw [TokenApi.update_status_found oid st db o hmem h2]
      exact TokenApi.find?_map_set_status db.orders oid st o h2
  · intro oid st db
    refine ⟨WebApp.update_order_status_not_found oid st db,
      fun o h2 hst => WebApp.update_order_status_invalid oid st db o h2 hst,
      WebApp.update_order_status_error_fst oid st db, ?_⟩
    intro o hmem h2
    constructor
    · rw [WebApp.update_order_status_found oid st db o h2 hmem]
    · rw [WebApp.update_order_status_found oid st db o h2 hmem]
      exact WebApp.wa_find_map_set_status db.orders oid st o h2

/-- Witness for C5: on a store holding one placed order (id 1), the
status value "eaten" is rejected as invalid, the unknown order id 9 is
rejected as not found — the store unchanged both times — and updating
order 1 to "ready" succeeds with its status equal to "ready". -/
theorem c5_update_status_validation_witness :
    TokenApi.update_status 1 "eaten" statusDb =
      (statusDb, .error TokenApi.invalid_status_err) ∧
    TokenApi.update_status 9 "ready" statusDb =
      (statusDb, .error TokenApi.order_not_found_err) ∧
    (TokenApi.update_status 1 "ready" statusDb).2 =
      .ok ⟨1, "SSS111", none, none, 5, "ready", 1⟩ := by
  refine ⟨?_, ?_, ?_⟩
  · exact (c5_update_status_validation.1 1 "eaten" statusDb).1 (by decide)
  · exact (c5_update_status_validation.1 9 "ready" statusDb).2.1
      (by decide) rfl
  · exact ((c5_update_status_validation.1 1 "ready" statusDb).2.2.2
      ⟨1, "SSS111", none, none, 5, "placed", 1⟩ (by decide) rfl).1

/-- Counterexample for C10: the persisted total is not in general the
signed sum of price × quantity — the token variant rounds it to two
decimals.  Three units of a 0.001-priced item are accepted with
persisted total 0, while the signed sum is 0.003. -/
theorem c10_signed_sum_counterexample :
    (TokenApi.create_order ⟨none, none, [⟨1, 3⟩]⟩ "TOK3" 0 subCentDb).2 =
      .ok ⟨1, "TOK3", none, none, 0, "placed", 0⟩ ∧
    TokenApi.spec_total subCentDb.menu [⟨1, 3⟩] = 3/1000 ∧
    (0 : ℚ) ≠ 3/1000 := by
  refine ⟨?_, ?_, by norm_num⟩
  · with_unfolding_all rfl
  · with_unfolding_all rfl

/-- Claim C10 as amended: the Flask variant performs no validation on
quantities — every request whose lines all reference existing,
available items is accepted, zero or negative quantities included, and
the persisted total is the exact signed sum of price × quantity
(possibly zero or negative).  The token variant's handler performs no
quantity check of its own, but whether non-positive quantities can
reach it is decided by the request schema, which is not under src/; on
spec-conformant inputs (quantity ≥ 1) it persists the signed sum
rounded to two decimals. -/
theorem c10_no_quantity_validation :
    (∀ (uid : Nat) (items : List WebApp.ReqItem) (now : WebApp.DT)
        (db : WebApp.Db),
      items ≠ [] →
      (∀ it ∈ items, ∃ m,
        WebApp.lookup_item db.menu it.id = some m ∧ m.available = true) →
      (now.minute : Int) + WebApp.max_prep db.menu items ≤ 59 →
      ∃ r : WebApp.PlaceResp,
        (WebApp.place_order uid items now db).2 = .ok r ∧
        r.total_amount = WebApp.spec_total db.menu items) ∧
    (∀ (payload : TokenApi.OrderCreate) (tok : String) (now : Nat)
        (db : TokenApi.Db),
      payload.items ≠ [] →
      (∀ it ∈ payload.items, ∃ m,
        TokenApi.lookup_item db.menu it.item_id = some m ∧
          m.is_available = true) →
      (∀ it ∈ payload.items, 1 ≤ it.quantity) →
      ∃ o : TokenApi.Order,
        (TokenApi.create_order payload tok now db).2 = .ok o ∧
        o.total_amount = round2 (TokenApi.spec_total db.menu payload.items)) := by
  constructor
  · intro uid items now db hne hvalid hbound
    refine ⟨⟨db.next_order_id, WebApp.spec_total db.menu items,
      ⟨now.hour, ((now.minute : Int) + WebApp.max_prep db.menu items).toNat,
        0⟩⟩, ?_, rfl⟩
    rw [WebApp.place_order_ok_of_valid uid items now db hne hvalid hbound]
  · intro payload tok now db hne hvalid hpos
    refine ⟨⟨db.next_order_id, tok, payload.customer_name, payload.phone,
      round2 (TokenApi.spec_total db.menu payload.items), "placed", now⟩,
      ?_, rfl⟩
    rw [TokenApi.create_order_ok_of_valid payload tok now db hne hvalid]

/-- Witness for the amended C10: the Flask variant accepts a quantity of
−2 without any error, persisting the exact signed total −11.98; the
token variant at the spec-conformant quantity 2 persists the rounded
signed sum. -/
theorem c10_no_quantity_validation_witness :
    (∃ r : WebApp.PlaceResp,
      (WebApp.place_order 1 [⟨1, -2, none⟩] ⟨12, 0, 0⟩ prepDb).2 = .ok r ∧
      r.total_amount = WebApp.spec_total prepDb.menu [⟨1, -2, none⟩]) ∧
    WebApp.spec_total prepDb.menu [⟨1, -2, none⟩] = -(1198/100) ∧
    (∃ o : TokenApi.Order,
      (TokenApi.create_order vegReq "POS" 3 vegDb).2 = .ok o ∧
      o.total_amount = round2 (TokenApi.spec_total vegDb.menu vegReq.items)) := by
  refine ⟨?_, ?_, ?_⟩
  · exact c10_no_quantity_validation.1 1 [⟨1, -2, none⟩] ⟨12, 0, 0⟩ prepDb
      (by simp)
      (by
        intro it hit
        simp at hit
        subst hit
        exact ⟨⟨1, "Veg Burger", 599/100, true, 10⟩, rfl, rfl⟩)
      (by decide)
  · with_unfolding_all rfl
  · exact c10_no_quantity_validation.2 vegReq "POS" 3 vegDb
      (by simp [vegReq])
      (by
        intro it hit
        simp [vegReq] at hit
        subst hit
        exact ⟨⟨1, "Veg Burger", 599/100, true⟩, rfl, rfl⟩)
      (by decide)
